import Mathlib

/-!
Verification of the RIOS Reaper (`src/reaper/app.py`) against its
natural-language specification.

The Python module is embedded shallowly:

* external AWS services (EC2 inventory, CloudWatch metrics, ECS
  orchestration, SNS, the process environment) are modelled as explicit
  state records of pure functions passed into the embedded functions;
* CPU-utilization samples and the idle threshold are modelled as rationals
  (only `max` and `<` are applied to them, which are order-theoretic);
* the one place the Python code can raise inside its own logic —
  `max(cpuUtilList)` on an empty list when `numPeriods = 0` — and the
  uncaught exception of a failing `sns.publish` are modelled with
  `Option`/`Except`;
* calls made to external services (describe batches, publish requests) are
  returned as explicit traces so that frame conditions ("no describe call
  happens", "no notification is delivered") are statable.
-/

set_option autoImplicit false
set_option maxRecDepth 100000

namespace Reaper

/-! ### EC2 inventory model (`findInstancesByTag`, app.py lines 44-60) -/

/-- One reservation of a `describe_instances` response: the `InstanceId`
strings of its `Instances` list (no other instance field is read). -/
structure Ec2Reservation where
  instances : List String
  deriving Repr, DecidableEq

/-- One page of the EC2 `describe_instances` response for a tag-key filter:
its `Reservations` and the pagination `NextToken`. -/
structure Ec2Page where
  reservations : List Ec2Reservation
  nextToken : Option String
  deriving Repr, DecidableEq

/-- The inventory service: for each tag key, the successive response pages
of the filtered `describe_instances` query.  A single un-tokenized call
returns the first page; the remaining pages are reachable only by passing
`NextToken` back. -/
abbrev Ec2Pages : Type := String → List Ec2Page

/-- Embeds `findInstancesByTag` (app.py lines 44-60): one
`describe_instances` call with a `tag-key` filter — only the FIRST response
page — then the `InstanceId` of every instance of every reservation. -/
def findInstancesByTag (ec2pages : Ec2Pages) (tagKey : String) : List String :=
  let response := (ec2pages tagKey).headD ⟨[], none⟩
  response.reservations.flatMap (fun res => res.instances)

/-- Ground truth of the inventory service: the instances matching the tag
filter across ALL response pages of the paginated query. -/
def allTaggedInstanceIds (ec2pages : Ec2Pages) (tagKey : String) : List String :=
  (ec2pages tagKey).flatMap (fun page => page.reservations.flatMap (fun res => res.instances))

/-! ### CloudWatch model and the idle classifier
(`getCPUUtilization` / `findIdleInstances`, app.py lines 17-41 and 63-87) -/

/-- The metrics service: for an instance id, a period length (seconds) and a
number of periods, the `Average` values of the returned datapoints.
`getCPUUtilization` (app.py lines 63-87) is exactly this lookup followed by
a list comprehension extracting the averages, so the extraction is folded
into the state. CloudWatch may return fewer than `numPeriods` datapoints. -/
abbrev CwSamples : Type := String → Nat → Nat → List ℚ

/-- Python's `max` on a list: a left fold over the tail, raising
(`none`) on an empty list. -/
def pyMax : List ℚ → Option ℚ
  | [] => none
  | x :: xs => some (xs.foldl max x)

/-- The per-instance idle verdict of `findIdleInstances` (app.py lines
36-38): outside the `len(cpuUtilList) == numPeriods` guard the instance is
simply not appended (`some false`); inside it the verdict is
`max(cpuUtilList) < idleThreshold`, which raises (`none`) when the guard
was satisfied by an empty list (`numPeriods = 0`). -/
def classifyIdle (cpuUtilList : List ℚ) (numPeriods : Nat) (idleThreshold : ℚ) :
    Option Bool :=
  if cpuUtilList.length = numPeriods then
    (pyMax cpuUtilList).map (fun m => decide (m < idleThreshold))
  else
    some false

/-- The `for instanceId in instanceIdList` loop of `findIdleInstances`
(app.py lines 31-39), appending each instance classified idle; a raised
exception (`none`) aborts the whole loop. -/
def idleLoop (cw : CwSamples) (periodLen numPeriods : Nat) (idleThreshold : ℚ) :
    List String → Option (List String)
  | [] => some []
  | instanceId :: rest =>
    match classifyIdle (cw instanceId periodLen numPeriods) numPeriods idleThreshold with
    | none => none
    | some true => (idleLoop cw periodLen numPeriods idleThreshold rest).map (instanceId :: ·)
    | some false => idleLoop cw periodLen numPeriods idleThreshold rest

/-- Embeds `findIdleInstances` (app.py lines 17-41): look up the tagged
instances, then filter them through the per-instance idle verdict. The
Python defaults are `periodLen=3600`, `numPeriods=12`, `idleThreshold=1`. -/
def findIdleInstances (ec2pages : Ec2Pages) (cw : CwSamples) (tagKey : String)
    (periodLen numPeriods : Nat) (idleThreshold : ℚ) : Option (List String) :=
  idleLoop cw periodLen numPeriods idleThreshold (findInstancesByTag ec2pages tagKey)

/-! ### ECS model (`findStoppedClustersByTag`, app.py lines 90-120) -/

/-- One element of a cluster's `tags` list; `tag.get('key')` can be absent. -/
structure EcsTag where
  key : Option String
  value : Option String
  deriving Repr, DecidableEq

/-- One cluster of a `describe_clusters` response: its name, its
`runningTasksCount` (absent ⇒ `cluster.get(...)` yields `None`), and its
`tags` (absent ⇒ `'tags' in cluster` is false). -/
structure ClusterDesc where
  clusterName : String
  runningTasksCount : Option Nat
  tags : Option (List EcsTag)
  deriving Repr, DecidableEq

/-- The orchestration service: the pages of `clusterArns` yielded by the
`list_clusters` paginator, and the `clusters` of the `describe_clusters`
response for a given batch of ARNs. -/
structure EcsState where
  listPages : List (List String)
  describe : List String → List ClusterDesc

/-- The filter of app.py lines 113-118: keep a cluster iff
`cluster.get('runningTasksCount') == 0`, the cluster has a `tags` entry,
and some tag's `key` equals `tag_key` (the inner loop `break`s at the
first hit, i.e. it is an existential). -/
def clusterMatches (cluster : ClusterDesc) (tag_key : String) : Bool :=
  cluster.runningTasksCount == some 0 &&
    match cluster.tags with
    | none => false
    | some ts => ts.any (fun t => t.key == some tag_key)

/-- The batch slices of `for i in range(0, len(cluster_arns), 100):
batch_arns = cluster_arns[i:i + 100]` (app.py lines 105-106), written with
the list length as structural fuel. -/
def chunksGo : Nat → List String → List (List String)
  | 0, _ => []
  | _, [] => []
  | fuel + 1, x :: xs => ((x :: xs).take 100) :: chunksGo fuel ((x :: xs).drop 100)

/-- The successive describe batches of at most 100 ARNs. -/
def chunks100 (cluster_arns : List String) : List (List String) :=
  chunksGo cluster_arns.length cluster_arns

/-- Embeds `findStoppedClustersByTag` (app.py lines 90-120), additionally
returning the list of `describe_clusters` calls it performs (one entry per
call, holding that call's batch of ARNs).  The paginated `list_clusters`
ARNs are concatenated; if there are none the function returns early,
making no describe call; otherwise each batch of 100 is described and the
matching cluster names are collected in order. -/
def findStoppedClustersByTagCalls (ecs : EcsState) (tag_key : String) :
    List String × List (List String) :=
  let cluster_arns := ecs.listPages.flatten
  if cluster_arns = [] then
    ([], [])
  else
    let batches := chunks100 cluster_arns
    (batches.flatMap
       (fun b => ((ecs.describe b).filter (fun c => clusterMatches c tag_key)).map
         (fun c => c.clusterName)),
     batches)

/-- The return value of `findStoppedClustersByTag`: the matching cluster
names. -/
def findStoppedClustersByTag (ecs : EcsState) (tag_key : String) : List String :=
  (findStoppedClustersByTagCalls ecs tag_key).1

/-- Embeds `findStoppedClusters` (app.py lines 123-128): a thin wrapper
constructing the ECS client and delegating. -/
def findStoppedClusters (ecs : EcsState) (tag_key : String) : List String :=
  findStoppedClustersByTag ecs tag_key

/-- All clusters returned across the describe calls of one run. -/
def describedClusters (ecs : EcsState) : List ClusterDesc :=
  (chunks100 ecs.listPages.flatten).flatMap ecs.describe

/-! ### Notifier and handler (`lambda_handler`, app.py lines 138-163) -/

/-- The message built by app.py lines 152-160: a first line accumulated
into `msg`, then a second line appended with a leading newline. -/
def buildMessage (idleInstanceList stoppedClusters : List String) : String :=
  let msg :=
    if idleInstanceList.length = 0 then
      "No Idle Instances detected"
    else
      "The following idle instances were found: " ++ String.intercalate "," idleInstanceList
  if stoppedClusters.length = 0 then
    msg ++ "\nNo Stopped Clusters found"
  else
    msg ++ "\nThe following stopped clusters were found: " ++
      String.intercalate "," stoppedClusters

/-- Everything `lambda_handler` hands to external services, recorded so
that frame conditions are statable: the tag key of the EC2 query, the tag
key of the ECS query, the idle-policy parameters passed to
`findIdleInstances`, and the `sns.publish` calls (topic ARN as read from
the environment, message). -/
structure HandlerTrace where
  instanceTagKey : String
  clusterTagKey : String
  periodLen : Nat
  numPeriods : Nat
  idleThreshold : ℚ
  publishes : List (Option String × String)
  deriving Repr, DecidableEq

/-- The world `lambda_handler` runs in: the four AWS services and the
process environment (`os.getenv`). `publishFails` tells whether the
`sns.publish` call for a given topic ARN and message raises. -/
structure AwsEnv where
  ec2pages : Ec2Pages
  cw : CwSamples
  ecs : EcsState
  getenv : String → Option String
  publishFails : Option String → String → Bool

/-- Embeds `lambda_handler` (app.py lines 138-163): compute the idle
instances for the literal tag key `'RIOS-computeworkerinstance'` with the
default policy (3600 s, 12 periods, threshold 1), the stopped clusters for
the literal tag key `'RIOS-cluster'`, then — unless `SNS_TOPIC_ARN` reads
exactly the placeholder `'SNSTopic'` — build the message and publish it to
whatever `os.getenv` returned (possibly `None`).  An exception escaping
`max()` or `sns.publish` propagates out of the handler (`Except.error`);
otherwise the handler returns the dict
`{'idle': idleInstanceList, 'stopped': stoppedClusters}` alongside the
trace of its external calls. -/
def lambda_handler (env : AwsEnv) :
    Except String (HandlerTrace × List String × List String) :=
  match findIdleInstances env.ec2pages env.cw "RIOS-computeworkerinstance" 3600 12 1 with
  | none => Except.error "max() arg is an empty sequence"
  | some idleInstanceList =>
    let stoppedClusters := findStoppedClusters env.ecs "RIOS-cluster"
    let topic_arn := env.getenv "SNS_TOPIC_ARN"
    if topic_arn = some "SNSTopic" then
      Except.ok (⟨"RIOS-computeworkerinstance", "RIOS-cluster", 3600, 12, 1, []⟩,
        idleInstanceList, stoppedClusters)
    else
      let msg := buildMessage idleInstanceList stoppedClusters
      if env.publishFails topic_arn msg then
        Except.error "sns publish failed"
      else
        Except.ok (⟨"RIOS-computeworkerinstance", "RIOS-cluster", 3600, 12, 1,
          [(topic_arn, msg)]⟩, idleInstanceList, stoppedClusters)

/-! ### Claim C1 — the idle classifier -/

/-- **C1.** For every sample sequence, number of periods and threshold, the
per-instance verdict of `findIdleInstances` is idle (`some true`) iff the
sequence has exactly `numPeriods` samples and its maximum (which then
exists) is strictly below the threshold; and every sequence shorter than
`numPeriods` yields the verdict `some false`, whatever its values. -/
theorem idle_classifier_spec (samples : List ℚ) (numPeriods : Nat) (threshold : ℚ) :
    (classifyIdle samples numPeriods threshold = some true ↔
      samples.length = numPeriods ∧ ∃ m, pyMax samples = some m ∧ m < threshold)
    ∧ (samples.length < numPeriods →
        classifyIdle samples numPeriods threshold = some false) := by
  constructor
  · unfold classifyIdle
    by_cases h : samples.length = numPeriods
    · simp only [h, if_true, true_and, Option.map_eq_some']
      constructor
      · rintro ⟨m, hm, hd⟩
        exact ⟨m, hm, of_decide_eq_true hd⟩
      · rintro ⟨m, hm, hlt⟩
        exact ⟨m, hm, decide_eq_true hlt⟩
    · simp [h]
  · intro hlt
    unfold classifyIdle
    simp [Nat.ne_of_lt hlt]

/-- Witness for C1 at a concrete input: the all-zero sequence of length 2
is shorter than 12 periods and is not classified idle. -/
theorem idle_classifier_spec_witness :
    ([(0 : ℚ), 0].length < 12) ∧ classifyIdle [(0 : ℚ), 0] 12 1 = some false :=
  ⟨by decide, (idle_classifier_spec [(0 : ℚ), 0] 12 1).2 (by decide)⟩

/-! ### Claim C10 — the idle list is a sublist of the instance list -/

/-- The idle loop only ever appends the instance under scrutiny, so a
successful run returns an order-preserving sublist of its input. -/
lemma idleLoop_sublist (cw : CwSamples) (periodLen numPeriods : Nat)
    (idleThreshold : ℚ) :
    ∀ (l out : List String),
      idleLoop cw periodLen numPeriods idleThreshold l = some out → out.Sublist l := by
  intro l
  induction l with
  | nil =>
    intro out h
    obtain rfl : ([] : List String) = out := Option.some.inj h
    exact List.Sublist.refl []
  | cons instanceId rest ih =>
    intro out h
    unfold idleLoop at h
    rcases hc : classifyIdle (cw instanceId periodLen numPeriods) numPeriods idleThreshold
      with _ | b
    · rw [hc] at h; exact absurd h (by simp)
    · rw [hc] at h
      cases b
      · exact List.Sublist.cons instanceId (ih out h)
      · simp only [Option.map_eq_some'] at h
        obtain ⟨out', hout', rfl⟩ := h
        exact List.Sublist.cons₂ instanceId (ih out' hout')

/-- **C10.** Whenever `findIdleInstances` completes, its result is an
order-preserving sublist of the instance list produced by
`findInstancesByTag`: every idle id occurs among the found instances, each
occurrence contributes at most one entry, and relative order is kept. -/
theorem idle_list_sublist (ec2pages : Ec2Pages) (cw : CwSamples) (tagKey : String)
    (periodLen numPeriods : Nat) (idleThreshold : ℚ) (out : List String)
    (h : findIdleInstances ec2pages cw tagKey periodLen numPeriods idleThreshold = some out) :
    out.Sublist (findInstancesByTag ec2pages tagKey) :=
  idleLoop_sublist cw periodLen numPeriods idleThreshold _ out h

/-- A one-page inventory with a single tagged instance `i-1`. -/
def ec2OneInstance : Ec2Pages := fun _ => [⟨[⟨["i-1"]⟩], none⟩]

/-- Metrics giving every instance twelve zero samples. -/
def cwTwelveZeros : CwSamples := fun _ _ _ => List.replicate 12 0

/-- Witness for C10 at a concrete input: with one tagged instance and a
full window of zero samples the run succeeds with `["i-1"]`, a sublist of
the found instances. -/
theorem idle_list_sublist_witness :
    List.Sublist ["i-1"] (findInstancesByTag ec2OneInstance "RIOS-computeworkerinstance") :=
  idle_list_sublist ec2OneInstance cwTwelveZeros "RIOS-computeworkerinstance"
    3600 12 1 ["i-1"] (by decide)

/-! ### Claim C4 — the Instance Finder does not paginate -/

/-- An inventory whose filtered `describe_instances` answer spans two
pages: `i-1` on the first page (which advertises a `NextToken`), `i-2` on
the second. -/
def ec2TwoPages : Ec2Pages := fun _ =>
  [⟨[⟨["i-1"]⟩], some "page-2-token"⟩, ⟨[⟨["i-2"]⟩], none⟩]

/-- **C4.** `findInstancesByTag` reads only the first response page: on a
two-page inventory it returns `["i-1"]` even though `i-2` also carries the
tag, and it does so although the response it received advertised a
continuation token.  This contradicts both the function's own docstring
("Find all instances which have the given tag") and the spec's paging
contract. -/
theorem find_instances_ignores_later_pages :
    findInstancesByTag ec2TwoPages "RIOS-computeworkerinstance" = ["i-1"]
    ∧ "i-2" ∈ allTaggedInstanceIds ec2TwoPages "RIOS-computeworkerinstance"
    ∧ "i-2" ∉ findInstancesByTag ec2TwoPages "RIOS-computeworkerinstance"
    ∧ ((ec2TwoPages "RIOS-computeworkerinstance").headD ⟨[], none⟩).nextToken
        = some "page-2-token" := by
  refine ⟨rfl, ?_, ?_, rfl⟩ <;> decide

/-! ### Claims C2, C3, C5 — the Cluster Finder -/

/-- `chunksGo` with enough fuel concatenates back to its input: every ARN
lands in exactly one describe batch, in order. -/
lemma chunksGo_flatten (fuel : Nat) :
    ∀ l : List String, l.length ≤ fuel → (chunksGo fuel l).flatten = l := by
  induction fuel with
  | zero =>
    intro l hl
    obtain rfl : l = [] := List.length_eq_zero.mp (Nat.le_zero.mp hl)
    rfl
  | succ n ih =>
    intro l hl
    match l with
    | [] => rfl
    | x :: xs =>
      show (x :: xs).take 100 ++ (chunksGo n ((x :: xs).drop 100)).flatten = x :: xs
      rw [ih ((x :: xs).drop 100) (by simp at hl ⊢; omega)]
      exact List.take_append_drop 100 (x :: xs)

/-- Every batch produced by `chunksGo` is nonempty and holds at most 100
ARNs. -/
lemma chunksGo_mem_length (fuel : Nat) :
    ∀ (l : List String) (b : List String),
      b ∈ chunksGo fuel l → b.length ≤ 100 ∧ b ≠ [] := by
  induction fuel with
  | zero => intro l b hb; exact absurd hb (by simp [chunksGo])
  | succ n ih =>
    intro l b hb
    match l with
    | [] => exact absurd hb (by simp [chunksGo])
    | x :: xs =>
      rcases List.mem_cons.mp hb with hb | hb
      · subst hb
        refine ⟨by simp, by simp⟩
      · exact ih _ b hb

/-- The flatten of all describe batches is the full ARN list. -/
lemma chunks100_flatten (l : List String) : (chunks100 l).flatten = l :=
  chunksGo_flatten l.length l le_rfl

/-- **C3.** The describe batches of `findStoppedClustersByTag` partition
the listed ARNs: concatenated in order they give back exactly the full ARN
list (so every identifier is described exactly once), each batch holds at
most 100 ARNs (and none is empty), and the returned result is the ordered
union of the per-batch results. -/
theorem stopped_clusters_chunking (ecs : EcsState) (k : String) :
    ((findStoppedClustersByTagCalls ecs k).2).flatten = ecs.listPages.flatten
    ∧ (∀ b ∈ (findStoppedClustersByTagCalls ecs k).2, b.length ≤ 100 ∧ b ≠ [])
    ∧ findStoppedClustersByTag ecs k
        = ((findStoppedClustersByTagCalls ecs k).2).flatMap
            (fun b => ((ecs.describe b).filter (fun c => clusterMatches c k)).map
              (fun c => c.clusterName)) := by
  by_cases h : ecs.listPages.flatten = []
  · simp [findStoppedClustersByTag, findStoppedClustersByTagCalls, h]
  · simp only [findStoppedClustersByTag, findStoppedClustersByTagCalls, if_neg h]
    exact ⟨chunks100_flatten _, fun b hb => chunksGo_mem_length _ _ b hb, by trivial⟩

/-- 250 distinct cluster ARNs `c0`, `c1`, …, `c249`. -/
def arns250 : List String := (List.range 250).map (fun i => "c" ++ toString i)

/-- An orchestration state listing the 250 ARNs on one page and describing
every requested ARN as a tagged cluster with zero running tasks. -/
def ecs250 : EcsState :=
  ⟨[arns250],
   fun batch => batch.map (fun a => ⟨a, some 0, some [⟨some "RIOS-cluster", none⟩]⟩)⟩

/-- Witness for C3 at the spec's 250-cluster input: the describe batches
concatenate back to the 250 ARNs, they are sized 100/100/50, and the third
batch (the last 50 ARNs) obeys the at-most-100 bound. -/
theorem stopped_clusters_chunking_witness :
    ((findStoppedClustersByTagCalls ecs250 "RIOS-cluster").2).flatten
        = ecs250.listPages.flatten
    ∧ ((findStoppedClustersByTagCalls ecs250 "RIOS-cluster").2).map List.length
        = [100, 100, 50]
    ∧ (arns250.drop 200).length ≤ 100 ∧ arns250.drop 200 ≠ [] :=
  ⟨(stopped_clusters_chunking ecs250 "RIOS-cluster").1, by decide,
   (stopped_clusters_chunking ecs250 "RIOS-cluster").2.1 (arns250.drop 200) (by decide)⟩

/-- **C5.** When the paginated cluster listing yields no ARN at all, the
Cluster Finder returns the empty result and its trace of
`describe_clusters` calls is empty: the batch API is never invoked. -/
theorem no_describe_when_no_clusters (ecs : EcsState) (k : String)
    (h : ecs.listPages.flatten = []) :
    findStoppedClustersByTagCalls ecs k = ([], []) := by
  simp [findStoppedClustersByTagCalls, h]

/-- An orchestration state whose listing pages hold no cluster. -/
def ecsEmptyListing : EcsState :=
  ⟨[[]], fun batch => batch.map (fun a => ⟨a, some 0, some [⟨some "RIOS-cluster", none⟩]⟩)⟩

/-- Witness for C5 at a concrete input: a listing with one empty page
produces no result and no describe call, even though the describe function
would match every ARN it were given. -/
theorem no_describe_when_no_clusters_witness :
    findStoppedClustersByTagCalls ecsEmptyListing "RIOS-cluster" = ([], []) :=
  no_describe_when_no_clusters ecsEmptyListing "RIOS-cluster" rfl

/-- The Boolean filter of app.py lines 113-118, as a proposition. -/
lemma clusterMatches_iff (c : ClusterDesc) (k : String) :
    clusterMatches c k = true ↔
      c.runningTasksCount = some 0 ∧
        ∃ ts, c.tags = some ts ∧ ∃ t ∈ ts, t.key = some k := by
  obtain ⟨nm, rtc, tags⟩ := c
  cases tags with
  | none => simp [clusterMatches]
  | some ts => simp [clusterMatches, List.any_eq_true]

/-- **C2.** A name is in the Cluster Finder's result iff some described
cluster bears that name, reports `runningTasksCount = 0`, and carries the
tag key under some (possibly absent) value. -/
theorem stopped_cluster_membership (ecs : EcsState) (k name : String) :
    name ∈ findStoppedClustersByTag ecs k ↔
      ∃ c ∈ describedClusters ecs,
        c.clusterName = name ∧ c.runningTasksCount = some 0 ∧
          ∃ ts, c.tags = some ts ∧ ∃ t ∈ ts, t.key = some k := by
  by_cases h : ecs.listPages.flatten = []
  · simp [findStoppedClustersByTag, findStoppedClustersByTagCalls, describedClusters, h,
      chunks100, chunksGo]
  · simp only [findStoppedClustersByTag, findStoppedClustersByTagCalls, if_neg h,
      describedClusters, List.mem_flatMap, List.mem_map, List.mem_filter]
    constructor
    · rintro ⟨b, hb, c, ⟨hc, hmatch⟩, rfl⟩
      obtain ⟨hrun, hts⟩ := (clusterMatches_iff c k).mp hmatch
      exact ⟨c, ⟨b, hb, hc⟩, rfl, hrun, hts⟩
    · rintro ⟨c, ⟨b, hb, hc⟩, rfl, hrun, hts⟩
      exact ⟨b, hb, c, ⟨hc, (clusterMatches_iff c k).mpr ⟨hrun, hts⟩⟩, rfl⟩

/-! ### Claim C6 — the notification message -/

/-- The spec's first message line: "No Idle Instances detected" when the
idle list is empty, otherwise the header followed by the comma-joined
identifiers. -/
def specLine1 (idle : List String) : String :=
  if idle = [] then "No Idle Instances detected"
  else "The following idle instances were found: " ++ String.intercalate "," idle

/-- The spec's second message line: "No Stopped Clusters found" when the
stopped list is empty, otherwise the header followed by the comma-joined
names. -/
def specLine2 (stopped : List String) : String :=
  if stopped = [] then "No Stopped Clusters found"
  else "The following stopped clusters were found: " ++ String.intercalate "," stopped

lemma nl_split_no_stopped :
    ("\nNo Stopped Clusters found" : String) = "\n" ++ "No Stopped Clusters found" := by
  decide

lemma nl_split_stopped_found :
    ("\nThe following stopped clusters were found: " : String)
      = "\n" ++ "The following stopped clusters were found: " := by
  decide

/-- **C6.** The message built by the handler is exactly the spec's two
lines joined by a newline, for every idle and stopped list; in particular
the all-empty message is the quoted constant, and two idle instances are
comma-joined after the header. -/
theorem notifier_message_format :
    (∀ idle stopped : List String,
      buildMessage idle stopped = specLine1 idle ++ "\n" ++ specLine2 stopped)
    ∧ buildMessage [] [] = "No Idle Instances detected\nNo Stopped Clusters found"
    ∧ buildMessage ["i-1", "i-2"] []
        = "The following idle instances were found: i-1,i-2\nNo Stopped Clusters found" := by
  refine ⟨?_, by decide, by decide⟩
  intro idle stopped
  by_cases hi : idle = [] <;> by_cases hs : stopped = [] <;>
    simp [buildMessage, specLine1, specLine2, hi, hs, List.length_eq_zero,
      String.append_assoc, nl_split_no_stopped, nl_split_stopped_found]
  · conv_rhs => rw [← String.append_assoc]
    congr 1
  · congr 1

/-! ### Claims C7, C8, C9 — the handler's notification and configuration -/

/-- An empty inventory page stream: no tagged instance exists. -/
def trivialEc2 : Ec2Pages := fun _ => []

/-- A metrics service returning no datapoint for any query. -/
def trivialCw : CwSamples := fun _ _ _ => []

/-- An orchestration service listing no cluster. -/
def trivialEcs : EcsState := ⟨[], fun _ => []⟩

/-- A run in which no notification channel is configured at all:
`os.getenv` returns `None` for every name.  Publishing succeeds (the model
isolates the skip-check from delivery failure). -/
def envNoTopic : AwsEnv := ⟨trivialEc2, trivialCw, trivialEcs, fun _ => none, fun _ _ => false⟩

/-- **C7 counterexample.** With no channel target configured at all
(`os.getenv 'SNS_TOPIC_ARN'` is `None`), the handler does NOT skip
delivery: `None != 'SNSTopic'` holds, so a publish call is issued (with a
`None` topic ARN).  The claim's "including the case where no channel
target is configured at all" is false of the code; only the literal
placeholder `'SNSTopic'` suppresses delivery. -/
theorem unconfigured_channel_still_publishes :
    envNoTopic.getenv "SNS_TOPIC_ARN" = none
    ∧ lambda_handler envNoTopic = Except.ok
        (⟨"RIOS-computeworkerinstance", "RIOS-cluster", 3600, 12, 1,
          [(none, "No Idle Instances detected\nNo Stopped Clusters found")]⟩, [], [])
    ∧ ([(none, "No Idle Instances detected\nNo Stopped Clusters found")]
        : List (Option String × String)) ≠ [] := by
  refine ⟨rfl, rfl, by decide⟩

/-- **C7 (amended).** When the configured channel value reads exactly the
placeholder `'SNSTopic'`, no publish call is made and the handler still
returns the computed idle and stopped lists. -/
theorem sentinel_skips_delivery (env : AwsEnv) (idle : List String)
    (h : env.getenv "SNS_TOPIC_ARN" = some "SNSTopic")
    (hidle : findIdleInstances env.ec2pages env.cw "RIOS-computeworkerinstance" 3600 12 1
      = some idle) :
    lambda_handler env = Except.ok
      (⟨"RIOS-computeworkerinstance", "RIOS-cluster", 3600, 12, 1, []⟩, idle,
        findStoppedClusters env.ecs "RIOS-cluster") := by
  unfold lambda_handler
  rw [hidle, h]
  simp

/-- A run whose environment carries the bootstrap placeholder. -/
def envSentinel : AwsEnv :=
  ⟨trivialEc2, trivialCw, trivialEcs,
   fun n => if n = "SNS_TOPIC_ARN" then some "SNSTopic" else none, fun _ _ => false⟩

/-- Witness for the amended C7 at a concrete input. -/
theorem sentinel_skips_delivery_witness :
    lambda_handler envSentinel = Except.ok
      (⟨"RIOS-computeworkerinstance", "RIOS-cluster", 3600, 12, 1, []⟩, [],
        findStoppedClusters envSentinel.ecs "RIOS-cluster") :=
  sentinel_skips_delivery envSentinel [] rfl rfl

/-- A run with a real topic ARN whose `sns.publish` raises. -/
def envPublishRaises : AwsEnv :=
  ⟨trivialEc2, trivialCw, trivialEcs,
   fun n => if n = "SNS_TOPIC_ARN" then some "arn:aws:sns:us-west-2:123456789012:reaper"
     else none,
   fun _ _ => true⟩

/-- **C8 counterexample.** A failing `sns.publish` is not caught: although
both lists were computed (here `[]` and `[]`), the handler propagates the
exception and returns no lists at all, contradicting the claim that the
computed lists are still returned with the failure surfaced separately. -/
theorem delivery_failure_loses_lists :
    lambda_handler envPublishRaises = Except.error "sns publish failed"
    ∧ findIdleInstances envPublishRaises.ec2pages envPublishRaises.cw
        "RIOS-computeworkerinstance" 3600 12 1 = some []
    ∧ findStoppedClusters envPublishRaises.ecs "RIOS-cluster" = []
    ∧ envPublishRaises.publishFails (envPublishRaises.getenv "SNS_TOPIC_ARN")
        (buildMessage [] []) = true := by
  refine ⟨rfl, rfl, rfl, rfl⟩

/-- **C8 (amended).** When the notification publish raises (and the
sentinel did not suppress delivery), the whole invocation fails: the
handler returns the error, not the computed lists. -/
theorem delivery_failure_aborts (env : AwsEnv) (idle : List String)
    (hidle : findIdleInstances env.ec2pages env.cw "RIOS-computeworkerinstance" 3600 12 1
      = some idle)
    (hne : env.getenv "SNS_TOPIC_ARN" ≠ some "SNSTopic")
    (hfail : env.publishFails (env.getenv "SNS_TOPIC_ARN")
      (buildMessage idle (findStoppedClusters env.ecs "RIOS-cluster")) = true) :
    lambda_handler env = Except.error "sns publish failed" := by
  unfold lambda_handler
  rw [hidle]
  simp [hne, hfail]

/-- Witness for the amended C8 at a concrete input. -/
theorem delivery_failure_aborts_witness :
    lambda_handler envPublishRaises = Except.error "sns publish failed" :=
  delivery_failure_aborts envPublishRaises [] (by decide) (by decide) rfl

/-- A run in which every environment-style variable has been overridden to
the value `OVERRIDE`. -/
def envAllOverridden : AwsEnv :=
  ⟨trivialEc2, trivialCw, trivialEcs, fun _ => some "OVERRIDE", fun _ _ => false⟩

/-- **C9 counterexample.** Overriding every environment variable to
`OVERRIDE` changes nothing but the publish target: the handler still
queries EC2 with the literal tag key `RIOS-computeworkerinstance`, ECS
with the literal `RIOS-cluster`, and the idle policy stays 3600 s / 12
periods / threshold 1 — those values are hardcoded, not read from the
environment, so overriding configuration does not change them. -/
theorem hardcoded_config_ignores_env :
    lambda_handler envAllOverridden = Except.ok
      (⟨"RIOS-computeworkerinstance", "RIOS-cluster", 3600, 12, 1,
        [(some "OVERRIDE", "No Idle Instances detected\nNo Stopped Clusters found")]⟩, [], [])
    ∧ envAllOverridden.getenv "INSTANCE_TAG_KEY" = some "OVERRIDE"
    ∧ ("RIOS-computeworkerinstance" : String) ≠ "OVERRIDE"
    ∧ ("RIOS-cluster" : String) ≠ "OVERRIDE" := by
  refine ⟨rfl, rfl, by decide, by decide⟩

/-- **C9 (amended).** In every successful run the instance tag key, the
cluster tag key and the idle-policy parameters used by the handler are the
fixed literals `RIOS-computeworkerinstance`, `RIOS-cluster` and
3600 s / 12 periods / threshold 1; only the publish target is taken from
the environment (`SNS_TOPIC_ARN`). -/
theorem only_topic_read_from_env (env : AwsEnv) (trace : HandlerTrace)
    (lists : List String × List String)
    (h : lambda_handler env = Except.ok (trace, lists)) :
    trace.instanceTagKey = "RIOS-computeworkerinstance"
    ∧ trace.clusterTagKey = "RIOS-cluster"
    ∧ trace.periodLen = 3600 ∧ trace.numPeriods = 12 ∧ trace.idleThreshold = 1
    ∧ ∀ p ∈ trace.publishes, p.1 = env.getenv "SNS_TOPIC_ARN" := by
  rcases hfi : findIdleInstances env.ec2pages env.cw "RIOS-computeworkerinstance" 3600 12 1
    with _ | idle
  · have hval : lambda_handler env = Except.error "max() arg is an empty sequence" := by
      unfold lambda_handler
      rw [hfi]
    rw [hval] at h
    exact absurd h (by simp)
  · by_cases hs : env.getenv "SNS_TOPIC_ARN" = some "SNSTopic"
    · have hval : lambda_handler env = Except.ok
          (⟨"RIOS-computeworkerinstance", "RIOS-cluster", 3600, 12, 1, []⟩, idle,
            findStoppedClusters env.ecs "RIOS-cluster") := by
        unfold lambda_handler
        rw [hfi, hs]
        simp
      rw [hval] at h
      obtain rfl : (⟨"RIOS-computeworkerinstance", "RIOS-cluster", 3600, 12, 1, []⟩
          : HandlerTrace) = trace := congrArg Prod.fst (Except.ok.inj h)
      exact ⟨rfl, rfl, rfl, rfl, rfl, by simp⟩
    · by_cases hf : env.publishFails (env.getenv "SNS_TOPIC_ARN")
        (buildMessage idle (findStoppedClusters env.ecs "RIOS-cluster")) = true
      · have hval : lambda_handler env = Except.error "sns publish failed" := by
          unfold lambda_handler
          rw [hfi]
          simp [hs, hf]
        rw [hval] at h
        exact absurd h (by simp)
      · have hval : lambda_handler env = Except.ok
            (⟨"RIOS-computeworkerinstance", "RIOS-cluster", 3600, 12, 1,
              [(env.getenv "SNS_TOPIC_ARN",
                buildMessage idle (findStoppedClusters env.ecs "RIOS-cluster"))]⟩, idle,
              findStoppedClusters env.ecs "RIOS-cluster") := by
          unfold lambda_handler
          rw [hfi]
          simp [hs, hf]
        rw [hval] at h
        obtain rfl : (⟨"RIOS-computeworkerinstance", "RIOS-cluster", 3600, 12, 1,
            [(env.getenv "SNS_TOPIC_ARN",
              buildMessage idle (findStoppedClusters env.ecs "RIOS-cluster"))]⟩
            : HandlerTrace) = trace := congrArg Prod.fst (Except.ok.inj h)
        refine ⟨rfl, rfl, rfl, rfl, rfl, ?_⟩
        intro p hp
        obtain rfl := List.mem_singleton.mp hp
        rfl

/-- A run with a configured real topic ARN and successful delivery. -/
def envPlainTopic : AwsEnv :=
  ⟨trivialEc2, trivialCw, trivialEcs,
   fun n => if n = "SNS_TOPIC_ARN" then some "arn:aws:sns:us-west-2:123456789012:reaper"
     else none,
   fun _ _ => false⟩

/-- Witness for the amended C9 at a concrete input. -/
theorem only_topic_read_from_env_witness :
    (⟨"RIOS-computeworkerinstance", "RIOS-cluster", 3600, 12, 1,
        [(some "arn:aws:sns:us-west-2:123456789012:reaper",
          "No Idle Instances detected\nNo Stopped Clusters found")]⟩
      : HandlerTrace).instanceTagKey = "RIOS-computeworkerinstance"
    ∧ (⟨"RIOS-computeworkerinstance", "RIOS-cluster", 3600, 12, 1,
        [(some "arn:aws:sns:us-west-2:123456789012:reaper",
          "No Idle Instances detected\nNo Stopped Clusters found")]⟩
      : HandlerTrace).clusterTagKey = "RIOS-cluster"
    ∧ (3600 : Nat) = 3600 ∧ (12 : Nat) = 12 ∧ (1 : ℚ) = 1
    ∧ ∀ p ∈ ([(some "arn:aws:sns:us-west-2:123456789012:reaper",
          "No Idle Instances detected\nNo Stopped Clusters found")]
        : List (Option String × String)), p.1 = envPlainTopic.getenv "SNS_TOPIC_ARN" :=
  only_topic_read_from_env envPlainTopic _ ([], []) rfl

end Reaper
